import Mathlib

/-
  Verification development for the empa-tk GPU data-parallel primitives
  library.  The host-side command-recording logic of each primitive
  (prefix sum, radix sort, radix sort-by, find-runs, gather-by,
  scatter-by) is shallowly embedded as pure Lean functions that return
  the list of recorded commands together with the updated internal
  buffer capacities.  Machine integers are modelled as `Nat` with
  explicit `% 2 ^ 32` where the Rust code casts with `as u32`.
-/

namespace EmpaTk

/-- Rust `u32::div_ceil`: `self / rhs + (if self % rhs == 0 then 0 else 1)`. -/
def divCeil (a b : Nat) : Nat :=
  a / b + (if a % b = 0 then 0 else 1)

/-- Semantics of a Rust `as u32` cast on a nonnegative integer. -/
def toU32 (n : Nat) : Nat := n % 2 ^ 32

/- Constants from `prefix_sum/prefix_sum.rs`. -/

def PrefixSum.GROUPS_SIZE : Nat := 256

def PrefixSum.VALUES_PER_THREAD : Nat := 8

def PrefixSum.SEGMENT_SIZE : Nat := PrefixSum.GROUPS_SIZE * PrefixSum.VALUES_PER_THREAD

/- Constants from `radix_sort/mod.rs`. -/

def RADIX_SIZE : Nat := 8

def RADIX_DIGITS : Nat := 256

def RADIX_GROUPS : Nat := 4

/- Constants from `radix_sort/bucket_histogram/mod.rs`. -/

def BucketHistogram.GROUP_SIZE : Nat := 256

def BucketHistogram.GROUP_ITERATIONS : Nat := 4

def BUCKET_HISTOGRAM_SEGMENT_SIZE : Nat :=
  BucketHistogram.GROUP_SIZE * BucketHistogram.GROUP_ITERATIONS

/- Constants from `radix_sort/bucket_scatter/mod.rs`. -/

def BucketScatter.GROUP_SIZE : Nat := 256

def BucketScatter.VALUES_PER_THREAD : Nat := 4

def BUCKET_SCATTER_SEGMENT_SIZE : Nat :=
  BucketScatter.GROUP_SIZE * BucketScatter.VALUES_PER_THREAD

/- Constants from `radix_sort/bucket_scatter_by/mod.rs`. -/

def BucketScatterBy.GROUP_SIZE : Nat := 256

def BucketScatterBy.VALUES_PER_THREAD : Nat := 4

def BUCKET_SCATTER_BY_SEGMENT_SIZE : Nat :=
  BucketScatterBy.GROUP_SIZE * BucketScatterBy.VALUES_PER_THREAD

/- Constants from `find_runs/mod.rs`, `gather_by/mod.rs`, `scatter_by/mod.rs`. -/

def FindRuns.GROUPS_SIZE : Nat := 256

def GatherBy.GROUP_SIZE : Nat := 256

def ScatterBy.GROUP_SIZE : Nat := 256

/-- How the workgroup count of a compute-pass dispatch is determined:
either directly with an explicit workgroup count, or indirectly from a
device-side `DispatchWorkgroups` record. -/
inductive DispatchSize where
  | direct (workgroups : Nat)
  | indirect
deriving DecidableEq

def DispatchSize.isIndirect : DispatchSize → Bool
  | DispatchSize.direct _ => false
  | DispatchSize.indirect => true

/-- Internal device buffers that the encoders record clears of. -/
inductive Buf where
  | globalBucketData
  | psGroupCounter
  | psGroupState
  | bsGroupCounter
  | bsGroupState
  | bsByGroupCounter
  | bsByGroupState
  | runMapping
deriving DecidableEq

/-- One command recorded on the command encoder.  Every kernel dispatch
carries the element count bound to its `count`/`max_count` uniform
operand; the `inPrimary` flag of a scatter pass records whether its
`data_in`/`keys_in` view is the caller's primary buffer (`true`) or the
temporary buffer (`false`). -/
inductive Cmd where
  | generateDispatch (groupSize boundCount : Nat)
  | generateDispatches (boundCount : Nat)
  | clearBuffer (b : Buf)
  | clearBufferSlice (b : Buf)
  | scanDispatch (boundCount : Nat) (d : DispatchSize)
  | bucketHistogramDispatch (boundCount : Nat) (d : DispatchSize)
  | globalBucketOffsetsDispatch (workgroups : Nat)
  | bucketScatterDispatch (radixGroup : Nat) (inPrimary : Bool) (boundCount : Nat)
      (d : DispatchSize)
  | bucketScatterByDispatch (radixGroup : Nat) (inPrimary : Bool) (boundCount : Nat)
      (d : DispatchSize)
  | markRunStartsDispatch (boundCount : Nat) (d : DispatchSize)
  | collectRunStartsDispatch (boundCount : Nat) (d : DispatchSize)
  | resolveRunCountDispatch (boundCount : Nat) (workgroups : Nat)
  | gatherByDispatch (boundCount : Nat) (d : DispatchSize)
  | scatterByDispatch (boundCount : Nat) (d : DispatchSize)
deriving DecidableEq

/-- The count operand from `count_buffer.rs`: either a caller-supplied
uniform binding or an internally allocated buffer holding the fallback
count. -/
structure CountBuffer where
  isBinding : Bool
  value : Nat
deriving DecidableEq

/-- `CountBuffer::new` from `count_buffer.rs`. -/
def CountBuffer.new (binding : Option Nat) (fallbackCount : Nat) : CountBuffer :=
  match binding with
  | some b => { isBinding := true, value := b }
  | none => { isBinding := false, value := fallbackCount }

/-- `CountBuffer::uniform` from `count_buffer.rs`: converting either
variant to a binding exposes the held count. -/
def CountBuffer.uniform (c : CountBuffer) : Nat := c.value

/-- `PrefixSum::encode` from `prefix_sum/prefix_sum.rs`.  Takes the
length of the caller's data buffer, the optional count uniform and the
current `group_state` buffer capacity; returns the recorded commands and
the new `group_state` capacity. -/
def PrefixSum.encode (dataLen : Nat) (count : Option Nat) (groupStateLen : Nat) :
    List Cmd × Nat :=
  let dispatchIndirect := count.isSome
  let countVal := count.getD (toU32 dataLen)
  let workgroups := divCeil (toU32 dataLen) PrefixSum.SEGMENT_SIZE
  let groupStateLen' := if groupStateLen < workgroups then workgroups else groupStateLen
  let gen :=
    if dispatchIndirect then [Cmd.generateDispatch PrefixSum.SEGMENT_SIZE countVal] else []
  let d := if dispatchIndirect then DispatchSize.indirect else DispatchSize.direct workgroups
  (gen ++
      [Cmd.clearBuffer Buf.psGroupCounter, Cmd.clearBufferSlice Buf.psGroupState,
        Cmd.scanDispatch countVal d],
    groupStateLen')

/-- `BucketHistogram::encode` from `radix_sort/bucket_histogram/mod.rs`. -/
def BucketHistogram.encode (countVal : Nat) (dispatchIndirect : Bool) (fallbackCount : Nat) :
    List Cmd :=
  let d :=
    if dispatchIndirect then DispatchSize.indirect
    else DispatchSize.direct (divCeil fallbackCount BUCKET_HISTOGRAM_SEGMENT_SIZE)
  [Cmd.bucketHistogramDispatch countVal d]

/-- `GlobalBucketOffsets::encode` from `radix_sort/global_bucket_offsets/mod.rs`:
one direct dispatch of `RADIX_GROUPS` workgroups. -/
def GlobalBucketOffsets.encode : List Cmd :=
  [Cmd.globalBucketOffsetsDispatch RADIX_GROUPS]

/-- `BucketScatter::encode` from `radix_sort/bucket_scatter/mod.rs`.
Returns the recorded commands and the new `group_state` capacity. -/
def BucketScatter.encode (radixGroup : Nat) (inPrimary : Bool) (countVal : Nat)
    (dispatchIndirect : Bool) (fallbackCount : Nat) (groupStateLen : Nat) :
    List Cmd × Nat :=
  let fallbackGroups := divCeil fallbackCount BUCKET_SCATTER_SEGMENT_SIZE
  let groupStateLen' :=
    if groupStateLen < fallbackGroups then fallbackGroups else groupStateLen
  let d :=
    if dispatchIndirect then DispatchSize.indirect else DispatchSize.direct fallbackGroups
  ([Cmd.clearBuffer Buf.bsGroupCounter, Cmd.clearBufferSlice Buf.bsGroupState,
      Cmd.bucketScatterDispatch radixGroup inPrimary countVal d],
    groupStateLen')

/-- `BucketScatterBy::encode` from `radix_sort/bucket_scatter_by/mod.rs`. -/
def BucketScatterBy.encode (radixGroup : Nat) (inPrimary : Bool) (countVal : Nat)
    (dispatchIndirect : Bool) (fallbackCount : Nat) (groupStateLen : Nat) :
    List Cmd × Nat :=
  let fallbackGroups := divCeil fallbackCount BUCKET_SCATTER_BY_SEGMENT_SIZE
  let groupStateLen' :=
    if groupStateLen < fallbackGroups then fallbackGroups else groupStateLen
  let d :=
    if dispatchIndirect then DispatchSize.indirect else DispatchSize.direct fallbackGroups
  ([Cmd.clearBuffer Buf.bsByGroupCounter, Cmd.clearBufferSlice Buf.bsByGroupState,
      Cmd.bucketScatterByDispatch radixGroup inPrimary countVal d],
    groupStateLen')

/-- The scatter-pass loop of `RadixSort::encode_internal` from
`radix_sort/radix_sort.rs`: for each pass index `i`, pass `i` reads the
primary buffer and writes the temporary buffer when `i & 1 == 0`, and the
reverse otherwise. -/
def RadixSort.scatterPasses (passes : List Nat) (countVal : Nat) (dispatchIndirect : Bool)
    (fallbackCount : Nat) (groupStateLen : Nat) : List Cmd × Nat :=
  match passes with
  | [] => ([], groupStateLen)
  | i :: rest =>
    let r :=
      BucketScatter.encode i (i % 2 == 0) countVal dispatchIndirect fallbackCount groupStateLen
    let r' := RadixSort.scatterPasses rest countVal dispatchIndirect fallbackCount r.2
    (r.1 ++ r'.1, r'.2)

/-- `RadixSort::encode_internal` from `radix_sort/radix_sort.rs`.  Takes
the lengths of the caller's data and temporary-storage buffers, the
optional count uniform, the number of radix groups and the current
scatter `group_state` capacity. -/
def RadixSort.encodeInternal (dataLen tempLen : Nat) (count : Option Nat)
    (radixGroups : Nat) (scatterStateLen : Nat) : List Cmd × Nat :=
  let dispatchIndirect := count.isSome
  let countVal := count.getD (toU32 dataLen)
  let fallbackCount := toU32 dataLen
  let gen := if dispatchIndirect then [Cmd.generateDispatches countVal] else []
  let r :=
    RadixSort.scatterPasses (List.range radixGroups) countVal dispatchIndirect fallbackCount
      scatterStateLen
  (gen ++ [Cmd.clearBuffer Buf.globalBucketData] ++
      BucketHistogram.encode countVal dispatchIndirect fallbackCount ++
      GlobalBucketOffsets.encode ++ r.1,
    r.2)

/-- `RadixSort::encode` from `radix_sort/radix_sort.rs`: four radix groups. -/
def RadixSort.encode (dataLen tempLen : Nat) (count : Option Nat)
    (scatterStateLen : Nat) : List Cmd × Nat :=
  RadixSort.encodeInternal dataLen tempLen count 4 scatterStateLen

/-- `RadixSort::encode_half_precision` from `radix_sort/radix_sort.rs`:
two radix groups. -/
def RadixSort.encodeHalfPrecision (dataLen tempLen : Nat) (count : Option Nat)
    (scatterStateLen : Nat) : List Cmd × Nat :=
  RadixSort.encodeInternal dataLen tempLen count 2 scatterStateLen

/-- The scatter-pass loop of `RadixSortBy::encode_internal` from
`radix_sort/radix_sort_by.rs`. -/
def RadixSortBy.scatterPasses (passes : List Nat) (countVal : Nat) (dispatchIndirect : Bool)
    (fallbackCount : Nat) (groupStateLen : Nat) : List Cmd × Nat :=
  match passes with
  | [] => ([], groupStateLen)
  | i :: rest =>
    let r :=
      BucketScatterBy.encode i (i % 2 == 0) countVal dispatchIndirect fallbackCount
        groupStateLen
    let r' := RadixSortBy.scatterPasses rest countVal dispatchIndirect fallbackCount r.2
    (r.1 ++ r'.1, r'.2)

/-- `RadixSortBy::encode_internal` from `radix_sort/radix_sort_by.rs`.
Takes the lengths of the caller's key, value, temporary-key and
temporary-value buffers, the optional count uniform, the number of radix
groups and the current scatter `group_state` capacity. -/
def RadixSortBy.encodeInternal (keysLen valuesLen tempKeysLen tempValuesLen : Nat)
    (count : Option Nat) (radixGroups : Nat) (scatterStateLen : Nat) : List Cmd × Nat :=
  let dispatchIndirect := count.isSome
  let fallbackCount := toU32 keysLen
  let countVal := (CountBuffer.new count fallbackCount).uniform
  let gen := if dispatchIndirect then [Cmd.generateDispatches countVal] else []
  let r :=
    RadixSortBy.scatterPasses (List.range radixGroups) countVal dispatchIndirect fallbackCount
      scatterStateLen
  (gen ++ [Cmd.clearBuffer Buf.globalBucketData] ++
      BucketHistogram.encode countVal dispatchIndirect fallbackCount ++
      GlobalBucketOffsets.encode ++ r.1,
    r.2)

/-- `RadixSortBy::encode` from `radix_sort/radix_sort_by.rs`. -/
def RadixSortBy.encode (keysLen valuesLen tempKeysLen tempValuesLen : Nat)
    (count : Option Nat) (scatterStateLen : Nat) : List Cmd × Nat :=
  RadixSortBy.encodeInternal keysLen valuesLen tempKeysLen tempValuesLen count 4
    scatterStateLen

/-- `RadixSortBy::encode_half_precision` from `radix_sort/radix_sort_by.rs`. -/
def RadixSortBy.encodeHalfPrecision (keysLen valuesLen tempKeysLen tempValuesLen : Nat)
    (count : Option Nat) (scatterStateLen : Nat) : List Cmd × Nat :=
  RadixSortBy.encodeInternal keysLen valuesLen tempKeysLen tempValuesLen count 2
    scatterStateLen

/-- The body of the legacy count-less `RadixSort::encode` from
`radix_sort/mod.rs` after its assertions pass.  The legacy
`BucketHistogram` and `BucketScatter` sub-encoders it invokes are not
present under `src/`; their recorded commands are modelled after the
spec and the count-uniform variants, always dispatching directly from
the data length. -/
def RadixSortLegacy.body (dataLen : Nat) : List Cmd :=
  [Cmd.clearBuffer Buf.globalBucketData] ++
    BucketHistogram.encode (toU32 dataLen) false (toU32 dataLen) ++
    GlobalBucketOffsets.encode ++
    (RadixSort.scatterPasses (List.range RADIX_GROUPS) (toU32 dataLen) false
        (toU32 dataLen) 0).1

/-- The legacy count-less `RadixSort::encode` from `radix_sort/mod.rs`:
`assert_eq!` on the buffer lengths and `assert!` on the `2^30` bound run
before any command is recorded; a panic is modelled as `Except.error`
carrying the assertion message. -/
def RadixSortLegacy.encode (dataLen tempLen : Nat) : Except String (List Cmd) :=
  if dataLen ≠ tempLen then
    Except.error "`data` and `temporary_storage` must have the same length"
  else if ¬dataLen < 2 ^ 30 then
    Except.error "`data` length must be less than 2^30 (1073741824)"
  else
    Except.ok (RadixSortLegacy.body dataLen)

/-- Modelled from the spec: the count-uniform `MarkRunStarts::encode`
invoked by `find_runs/mod.rs` is not present under `src/` (only a legacy
count-less variant is).  Per spec §4.9 stage 1 is trivially
data-parallel; its encode is modelled after the `CollectRunStarts`
encoder in `src/`: a single kernel dispatch, indirect when a count
uniform was passed and otherwise direct with
`div_ceil(fallback_count, 256)` workgroups. -/
def MarkRunStarts.encode (countVal : Nat) (dispatchIndirect : Bool) (fallbackCount : Nat) :
    List Cmd :=
  let d :=
    if dispatchIndirect then DispatchSize.indirect
    else DispatchSize.direct (divCeil fallbackCount FindRuns.GROUPS_SIZE)
  [Cmd.markRunStartsDispatch countVal d]

/-- `CollectRunStarts::encode` from `find_runs/collect_run_starts/mod.rs`. -/
def CollectRunStarts.encode (countVal : Nat) (dispatchIndirect : Bool) (fallbackCount : Nat) :
    List Cmd :=
  let d :=
    if dispatchIndirect then DispatchSize.indirect
    else DispatchSize.direct (divCeil fallbackCount FindRuns.GROUPS_SIZE)
  [Cmd.collectRunStartsDispatch countVal d]

/-- `ResolveRunCount::encode` from `find_runs/resolve_run_count/mod.rs`:
always a single direct dispatch of one workgroup. -/
def ResolveRunCount.encode (countVal : Nat) : List Cmd :=
  [Cmd.resolveRunCountDispatch countVal 1]

/-- `FindRuns::encode` from `find_runs/mod.rs`.  Takes the length of the
caller's data buffer, the length of the `run_mapping` output buffer, the
optional count uniform and the current capacity of the inner prefix
sum's `group_state` buffer; returns the recorded commands and the new
capacity. -/
def FindRuns.encode (dataLen runMappingLen : Nat) (count : Option Nat)
    (psGroupStateLen : Nat) : List Cmd × Nat :=
  let dispatchIndirect := count.isSome
  let countVal := count.getD (toU32 dataLen)
  let gen :=
    if dispatchIndirect then [Cmd.generateDispatch FindRuns.GROUPS_SIZE countVal] else []
  let ps :=
    PrefixSum.encode runMappingLen (if dispatchIndirect then some countVal else none)
      psGroupStateLen
  (gen ++ [Cmd.clearBufferSlice Buf.runMapping] ++
      MarkRunStarts.encode countVal dispatchIndirect (toU32 dataLen) ++ ps.1 ++
      CollectRunStarts.encode countVal dispatchIndirect (toU32 dataLen) ++
      ResolveRunCount.encode countVal,
    ps.2)

/-- `GatherBy::encode` from `gather_by/mod.rs`. -/
def GatherBy.encode (byLen dataLen : Nat) (count : Option Nat) : List Cmd :=
  let dispatchIndirect := count.isSome
  let countVal := count.getD (toU32 dataLen)
  let gen :=
    if dispatchIndirect then [Cmd.generateDispatch GatherBy.GROUP_SIZE countVal] else []
  let d :=
    if dispatchIndirect then DispatchSize.indirect
    else DispatchSize.direct (divCeil (toU32 dataLen) GatherBy.GROUP_SIZE)
  gen ++ [Cmd.gatherByDispatch countVal d]

/-- `ScatterBy::encode` from `scatter_by/mod.rs`. -/
def ScatterBy.encode (byLen dataLen : Nat) (count : Option Nat) : List Cmd :=
  let dispatchIndirect := count.isSome
  let countVal := (CountBuffer.new count (toU32 dataLen)).uniform
  let gen :=
    if dispatchIndirect then [Cmd.generateDispatch ScatterBy.GROUP_SIZE countVal] else []
  let d :=
    if dispatchIndirect then DispatchSize.indirect
    else DispatchSize.direct (divCeil (toU32 dataLen) ScatterBy.GROUP_SIZE)
  gen ++ [Cmd.scatterByDispatch countVal d]

/-- One generated field line of the shader value struct written by
`write_value_type` in `write_value_type.rs`. -/
def valueTypeFieldLine (i : Nat) : String :=
  "    field_" ++ toString i ++ ": u32,\n"

/-- `write_value_type` from `write_value_type.rs`, parameterised by
`size_of::<V>()`.  A panic is modelled as `none`; otherwise the struct
text appended to the shader source string is returned. -/
def write_value_type (size : Nat) (s : String) : Option String :=
  if size % 4 ≠ 0 then none
  else
    some (s ++ "struct VALUE_TYPE \x7b" ++
      String.join ((List.range (size / 4)).map valueTypeFieldLine) ++ "\x7d\n\n")

/-- The per-workgroup per-digit scatter status from
`radix_sort/bucket_scatter/mod.rs` (`GroupStatus`, `repr(u32)`). -/
inductive GroupStatus where
  | NotReady
  | LocalOffset
  | GlobalOffset
deriving DecidableEq

/-- The `repr(u32)` discriminant of a `GroupStatus`. -/
def GroupStatus.code : GroupStatus → Nat
  | GroupStatus.NotReady => 0
  | GroupStatus.LocalOffset => 1
  | GroupStatus.GlobalOffset => 2

/-- Decoding of a packed scatter `GroupState` word, from the `Debug`
impl in `radix_sort/bucket_scatter/mod.rs`: `status = w >> 30`,
`value = w & 0x3FFFFFFF`; statuses `0`, `1`, `2` map to the three
`GroupStatus` variants and the remaining branch is `unreachable!`,
modelled as `none`. -/
def decodeGroupState (w : Nat) : Option (GroupStatus × Nat) :=
  let status := w >>> 30
  let value := w &&& 0x3FFFFFFF
  if status = 0 then some (GroupStatus.NotReady, value)
  else if status = 1 then some (GroupStatus.LocalOffset, value)
  else if status = 2 then some (GroupStatus.GlobalOffset, value)
  else none

/-- Modelled from the spec: the gather-by shader
(`gather_by/shader_template.wgsl`, not present under `src/`) computes
`dst[i] = src[idx[i]]` with one thread per `i` (spec §4.10). -/
def gather_by {α : Type} [Inhabited α] (idx : List Nat) (src : List α) : List α :=
  idx.map fun i => src.getD i default

/-- Modelled from the spec: the scatter-by shader
(`scatter_by/shader_template.wgsl`, not present under `src/`) performs
the writes `dst[idx[i]] = src[i]` (spec §4.10) into the caller's output
buffer `dst`. -/
def scatter_by {α : Type} (idx : List Nat) (src : List α) (dst : List α) : List α :=
  (idx.zip src).foldl (fun d p => d.set p.1 p.2) dst

/-- Modelled from the spec: the resolve-run-count kernel
(`find_runs/resolve_run_count/shader.wgsl`, not present under `src/`)
writes `run_count = run_mapping[n-1]` (spec §4.9 stage 4). -/
def resolveRunCountKernel (runMapping : List Nat) (n : Nat) : Nat :=
  runMapping.getD (n - 1) 0

/- Helper lemmas. -/

theorem divCeil_eq_add_sub_one_div (a b : Nat) (hb : 0 < b) :
    divCeil a b = (a + b - 1) / b := by
  have hd := Nat.div_add_mod a b
  have hm := Nat.mod_lt a hb
  rcases Nat.eq_zero_or_pos (a % b) with h | h
  · have h1 : a + b - 1 = b * (a / b) + (b - 1) := by omega
    rw [divCeil, if_pos h, h1, Nat.mul_add_div hb]
    rw [Nat.div_eq_of_lt (show b - 1 < b by omega)]
  · have h1 : a + b - 1 = b * (a / b) + (a % b + b - 1) := by omega
    have h2 : (a % b + b - 1) / b = 1 :=
      Nat.div_eq_of_lt_le (by omega) (by omega)
    rw [divCeil, if_neg (by omega), h1, Nat.mul_add_div hb, h2]

theorem divCeil_le_divCeil {a b : Nat} (hab : a ≤ b) (k : Nat) (hk : 0 < k) :
    divCeil a k ≤ divCeil b k := by
  rw [divCeil_eq_add_sub_one_div a k hk, divCeil_eq_add_sub_one_div b k hk]
  exact Nat.div_le_div_right (by omega)

theorem RadixSort.scatterPasses_snd_eq (passes : List Nat) (cv : Nat) (ind : Bool)
    (fb cap : Nat) :
    (RadixSort.scatterPasses passes cv ind fb cap).2 =
      if passes.isEmpty then cap
      else max cap (divCeil fb BUCKET_SCATTER_SEGMENT_SIZE) := by
  induction passes generalizing cap with
  | nil => simp [RadixSort.scatterPasses]
  | cons i rest ih =>
    simp only [RadixSort.scatterPasses, BucketScatter.encode, ih, List.isEmpty_cons]
    cases rest <;> simp <;> split_ifs <;> omega

theorem RadixSortBy.scatterPassesBy_snd_eq (passes : List Nat) (cv : Nat) (ind : Bool)
    (fb cap : Nat) :
    (RadixSortBy.scatterPasses passes cv ind fb cap).2 =
      if passes.isEmpty then cap
      else max cap (divCeil fb BUCKET_SCATTER_BY_SEGMENT_SIZE) := by
  induction passes generalizing cap with
  | nil => simp [RadixSortBy.scatterPasses]
  | cons i rest ih =>
    simp only [RadixSortBy.scatterPasses, BucketScatterBy.encode, ih, List.isEmpty_cons]
    cases rest <;> simp <;> split_ifs <;> omega

/- Claim theorems. -/

/-- C3: for every `PrefixSum::encode` over a data buffer of length `n`
with no count uniform supplied, the scan kernel is dispatched directly
with exactly `⌈n / 2048⌉` workgroups, where the segment size `2048`
equals the workgroup size `256` times the `8` values processed per
thread. -/
theorem prefix_sum_direct_workgroup_count (dataLen groupStateLen : Nat)
    (h : dataLen < 2 ^ 32) :
    (PrefixSum.encode dataLen none groupStateLen).1 =
      [Cmd.clearBuffer Buf.psGroupCounter, Cmd.clearBufferSlice Buf.psGroupState,
        Cmd.scanDispatch dataLen
          (DispatchSize.direct (divCeil dataLen PrefixSum.SEGMENT_SIZE))] ∧
    divCeil dataLen PrefixSum.SEGMENT_SIZE =
      (dataLen + PrefixSum.SEGMENT_SIZE - 1) / PrefixSum.SEGMENT_SIZE ∧
    PrefixSum.SEGMENT_SIZE = PrefixSum.GROUPS_SIZE * PrefixSum.VALUES_PER_THREAD ∧
    PrefixSum.SEGMENT_SIZE = 2048 ∧
    PrefixSum.GROUPS_SIZE = 256 ∧
    PrefixSum.VALUES_PER_THREAD = 8 := by
  refine ⟨?_, ?_, rfl, by decide, rfl, rfl⟩
  · have h32a : dataLen % 2 ^ 32 = dataLen := Nat.mod_eq_of_lt h
    have h32b : dataLen % 4294967296 = dataLen := h32a
    simp [PrefixSum.encode, toU32, h32a, h32b]
  · exact divCeil_eq_add_sub_one_div dataLen PrefixSum.SEGMENT_SIZE (by decide)

/-- Witness for C3 at a concrete input: a 5000-element buffer yields a
direct dispatch of `⌈5000 / 2048⌉ = 3` workgroups. -/
theorem prefix_sum_direct_workgroup_count_witness :
    (PrefixSum.encode 5000 none 0).1 =
      [Cmd.clearBuffer Buf.psGroupCounter, Cmd.clearBufferSlice Buf.psGroupState,
        Cmd.scanDispatch 5000 (DispatchSize.direct 3)] := by
  have h := (prefix_sum_direct_workgroup_count 5000 0 (by decide)).1
  have h3 : divCeil 5000 PrefixSum.SEGMENT_SIZE = 3 := by decide
  rw [h3] at h
  exact h

/-- C2 counterexample: the count-uniform `RadixSortBy::encode` of
`radix_sort/radix_sort_by.rs` performs no length assertion: with
mismatched key/value buffer lengths (keys 1, values 2) it still records
a nonempty command sequence, so the violation neither surfaces at encode
time nor prevents recording. -/
theorem radix_sort_assertions_counterexample :
    (RadixSortBy.encode 1 2 1 2 none 0).1 ≠ [] := by decide

/-- C2 (amended): the legacy count-less `RadixSort::encode` in
`radix_sort/mod.rs` asserts, before recording any command, that the
primary and temporary buffers have equal length and that the element
count is less than `2^30`, failing with a descriptive message and
recording nothing on violation; the count-uniform `RadixSort::encode`
(`radix_sort.rs`) and `RadixSortBy::encode` (`radix_sort_by.rs`) perform
no such assertions and record their command sequence regardless. -/
theorem radix_sort_assertions_amended :
    (∀ dataLen tempLen, dataLen ≠ tempLen →
      RadixSortLegacy.encode dataLen tempLen =
        Except.error "`data` and `temporary_storage` must have the same length") ∧
    (∀ dataLen, 2 ^ 30 ≤ dataLen →
      RadixSortLegacy.encode dataLen dataLen =
        Except.error "`data` length must be less than 2^30 (1073741824)") ∧
    (∀ dataLen tempLen, dataLen = tempLen → dataLen < 2 ^ 30 →
      RadixSortLegacy.encode dataLen tempLen = Except.ok (RadixSortLegacy.body dataLen)) ∧
    (∀ keysLen valuesLen tkLen tvLen count cap,
      (RadixSortBy.encode keysLen valuesLen tkLen tvLen count cap).1 ≠ []) ∧
    (∀ dataLen tempLen count cap,
      (RadixSort.encode dataLen tempLen count cap).1 ≠ []) := by
  refine ⟨?_, ?_, ?_, ?_, ?_⟩
  · intro dataLen tempLen h
    simp [RadixSortLegacy.encode, h]
  · intro dataLen h
    simp [RadixSortLegacy.encode, Nat.not_lt.mpr h]
    omega
  · intro dataLen tempLen h hlt
    subst h
    simp [RadixSortLegacy.encode, hlt]
    omega
  · intro keysLen valuesLen tkLen tvLen count cap
    cases count <;>
      simp [RadixSortBy.encode, RadixSortBy.encodeInternal]
  · intro dataLen tempLen count cap
    cases count <;>
      simp [RadixSort.encode, RadixSort.encodeInternal]

/-- Witness for C2's amended claim at concrete inputs: mismatched
lengths trip the first legacy assertion. -/
theorem radix_sort_assertions_witness :
    RadixSortLegacy.encode 1 2 =
      Except.error "`data` and `temporary_storage` must have the same length" :=
  radix_sort_assertions_amended.1 1 2 (by decide)

/-- C1: for every `RadixSort::encode` and `RadixSortBy::encode`
(including half precision), the recorded command sequence is: dispatch
generation iff a count uniform was passed, then a clear of the global
histogram buffer, then the bucket histogram kernel, then the global
bucket offsets kernel, then `P` bucket-scatter passes with
`radix_group = i` for `i = 0..P`, where pass `i` reads the primary
buffer(s) and writes the temporary buffer(s) when `i` is even
(`inPrimary = true`) and the reverse when `i` is odd; `P = 4` for
`encode` and `P = 2` for `encode_half_precision`, so the final pass
(odd `i`) always writes back into the primary buffer(s). -/
theorem radix_sort_encode_command_sequence :
    (∀ dataLen tempLen cap,
      (RadixSort.encode dataLen tempLen none cap).1 =
        [Cmd.clearBuffer Buf.globalBucketData,
          Cmd.bucketHistogramDispatch (toU32 dataLen)
            (DispatchSize.direct (divCeil (toU32 dataLen) BUCKET_HISTOGRAM_SEGMENT_SIZE)),
          Cmd.globalBucketOffsetsDispatch RADIX_GROUPS,
          Cmd.clearBuffer Buf.bsGroupCounter, Cmd.clearBufferSlice Buf.bsGroupState,
          Cmd.bucketScatterDispatch 0 true (toU32 dataLen)
            (DispatchSize.direct (divCeil (toU32 dataLen) BUCKET_SCATTER_SEGMENT_SIZE)),
          Cmd.clearBuffer Buf.bsGroupCounter, Cmd.clearBufferSlice Buf.bsGroupState,
          Cmd.bucketScatterDispatch 1 false (toU32 dataLen)
            (DispatchSize.direct (divCeil (toU32 dataLen) BUCKET_SCATTER_SEGMENT_SIZE)),
          Cmd.clearBuffer Buf.bsGroupCounter, Cmd.clearBufferSlice Buf.bsGroupState,
          Cmd.bucketScatterDispatch 2 true (toU32 dataLen)
            (DispatchSize.direct (divCeil (toU32 dataLen) BUCKET_SCATTER_SEGMENT_SIZE)),
          Cmd.clearBuffer Buf.bsGroupCounter, Cmd.clearBufferSlice Buf.bsGroupState,
          Cmd.bucketScatterDispatch 3 false (toU32 dataLen)
            (DispatchSize.direct (divCeil (toU32 dataLen) BUCKET_SCATTER_SEGMENT_SIZE))]) ∧
    (∀ dataLen tempLen n cap,
      (RadixSort.encode dataLen tempLen (some n) cap).1 =
        [Cmd.generateDispatches n,
          Cmd.clearBuffer Buf.globalBucketData,
          Cmd.bucketHistogramDispatch n DispatchSize.indirect,
          Cmd.globalBucketOffsetsDispatch RADIX_GROUPS,
          Cmd.clearBuffer Buf.bsGroupCounter, Cmd.clearBufferSlice Buf.bsGroupState,
          Cmd.bucketScatterDispatch 0 true n DispatchSize.indirect,
          Cmd.clearBuffer Buf.bsGroupCounter, Cmd.clearBufferSlice Buf.bsGroupState,
          Cmd.bucketScatterDispatch 1 false n DispatchSize.indirect,
          Cmd.clearBuffer Buf.bsGroupCounter, Cmd.clearBufferSlice Buf.bsGroupState,
          Cmd.bucketScatterDispatch 2 true n DispatchSize.indirect,
          Cmd.clearBuffer Buf.bsGroupCounter, Cmd.clearBufferSlice Buf.bsGroupState,
          Cmd.bucketScatterDispatch 3 false n DispatchSize.indirect]) ∧
    (∀ dataLen tempLen cap,
      (RadixSort.encodeHalfPrecision dataLen tempLen none cap).1 =
        [Cmd.clearBuffer Buf.globalBucketData,
          Cmd.bucketHistogramDispatch (toU32 dataLen)
            (DispatchSize.direct (divCeil (toU32 dataLen) BUCKET_HISTOGRAM_SEGMENT_SIZE)),
          Cmd.globalBucketOffsetsDispatch RADIX_GROUPS,
          Cmd.clearBuffer Buf.bsGroupCounter, Cmd.clearBufferSlice Buf.bsGroupState,
          Cmd.bucketScatterDispatch 0 true (toU32 dataLen)
            (DispatchSize.direct (divCeil (toU32 dataLen) BUCKET_SCATTER_SEGMENT_SIZE)),
          Cmd.clearBuffer Buf.bsGroupCounter, Cmd.clearBufferSlice Buf.bsGroupState,
          Cmd.bucketScatterDispatch 1 false (toU32 dataLen)
            (DispatchSize.direct (divCeil (toU32 dataLen) BUCKET_SCATTER_SEGMENT_SIZE))]) ∧
    (∀ dataLen tempLen n cap,
      (RadixSort.encodeHalfPrecision dataLen tempLen (some n) cap).1 =
        [Cmd.generateDispatches n,
          Cmd.clearBuffer Buf.globalBucketData,
          Cmd.bucketHistogramDispatch n DispatchSize.indirect,
          Cmd.globalBucketOffsetsDispatch RADIX_GROUPS,
          Cmd.clearBuffer Buf.bsGroupCounter, Cmd.clearBufferSlice Buf.bsGroupState,
          Cmd.bucketScatterDispatch 0 true n DispatchSize.indirect,
          Cmd.clearBuffer Buf.bsGroupCounter, Cmd.clearBufferSlice Buf.bsGroupState,
          Cmd.bucketScatterDispatch 1 false n DispatchSize.indirect]) ∧
    (∀ keysLen valuesLen tkLen tvLen cap,
      (RadixSortBy.encode keysLen valuesLen tkLen tvLen none cap).1 =
        [Cmd.clearBuffer Buf.globalBucketData,
          Cmd.bucketHistogramDispatch (toU32 keysLen)
            (DispatchSize.direct (divCeil (toU32 keysLen) BUCKET_HISTOGRAM_SEGMENT_SIZE)),
          Cmd.globalBucketOffsetsDispatch RADIX_GROUPS,
          Cmd.clearBuffer Buf.bsByGroupCounter, Cmd.clearBufferSlice Buf.bsByGroupState,
          Cmd.bucketScatterByDispatch 0 true (toU32 keysLen)
            (DispatchSize.direct (divCeil (toU32 keysLen) BUCKET_SCATTER_BY_SEGMENT_SIZE)),
          Cmd.clearBuffer Buf.bsByGroupCounter, Cmd.clearBufferSlice Buf.bsByGroupState,
          Cmd.bucketScatterByDispatch 1 false (toU32 keysLen)
            (DispatchSize.direct (divCeil (toU32 keysLen) BUCKET_SCATTER_BY_SEGMENT_SIZE)),
          Cmd.clearBuffer Buf.bsByGroupCounter, Cmd.clearBufferSlice Buf.bsByGroupState,
          Cmd.bucketScatterByDispatch 2 true (toU32 keysLen)
            (DispatchSize.direct (divCeil (toU32 keysLen) BUCKET_SCATTER_BY_SEGMENT_SIZE)),
          Cmd.clearBuffer Buf.bsByGroupCounter, Cmd.clearBufferSlice Buf.bsByGroupState,
          Cmd.bucketScatterByDispatch 3 false (toU32 keysLen)
            (DispatchSize.direct (divCeil (toU32 keysLen) BUCKET_SCATTER_BY_SEGMENT_SIZE))]) ∧
    (∀ keysLen valuesLen tkLen tvLen n cap,
      (RadixSortBy.encode keysLen valuesLen tkLen tvLen (some n) cap).1 =
        [Cmd.generateDispatches n,
          Cmd.clearBuffer Buf.globalBucketData,
          Cmd.bucketHistogramDispatch n DispatchSize.indirect,
          Cmd.globalBucketOffsetsDispatch RADIX_GROUPS,
          Cmd.clearBuffer Buf.bsByGroupCounter, Cmd.clearBufferSlice Buf.bsByGroupState,
          Cmd.bucketScatterByDispatch 0 true n DispatchSize.indirect,
          Cmd.clearBuffer Buf.bsByGroupCounter, Cmd.clearBufferSlice Buf.bsByGroupState,
          Cmd.bucketScatterByDispatch 1 false n DispatchSize.indirect,
          Cmd.clearBuffer Buf.bsByGroupCounter, Cmd.clearBufferSlice Buf.bsByGroupState,
          Cmd.bucketScatterByDispatch 2 true n DispatchSize.indirect,
          Cmd.clearBuffer Buf.bsByGroupCounter, Cmd.clearBufferSlice Buf.bsByGroupState,
          Cmd.bucketScatterByDispatch 3 false n DispatchSize.indirect]) ∧
    (∀ keysLen valuesLen tkLen tvLen cap,
      (RadixSortBy.encodeHalfPrecision keysLen valuesLen tkLen tvLen none cap).1 =
        [Cmd.clearBuffer Buf.globalBucketData,
          Cmd.bucketHistogramDispatch (toU32 keysLen)
            (DispatchSize.direct (divCeil (toU32 keysLen) BUCKET_HISTOGRAM_SEGMENT_SIZE)),
          Cmd.globalBucketOffsetsDispatch RADIX_GROUPS,
          Cmd.clearBuffer Buf.bsByGroupCounter, Cmd.clearBufferSlice Buf.bsByGroupState,
          Cmd.bucketScatterByDispatch 0 true (toU32 keysLen)
            (DispatchSize.direct (divCeil (toU32 keysLen) BUCKET_SCATTER_BY_SEGMENT_SIZE)),
          Cmd.clearBuffer Buf.bsByGroupCounter, Cmd.clearBufferSlice Buf.bsByGroupState,
          Cmd.bucketScatterByDispatch 1 false (toU32 keysLen)
            (DispatchSize.direct (divCeil (toU32 keysLen) BUCKET_SCATTER_BY_SEGMENT_SIZE))]) ∧
    (∀ keysLen valuesLen tkLen tvLen n cap,
      (RadixSortBy.encodeHalfPrecision keysLen valuesLen tkLen tvLen (some n) cap).1 =
        [Cmd.generateDispatches n,
          Cmd.clearBuffer Buf.globalBucketData,
          Cmd.bucketHistogramDispatch n DispatchSize.indirect,
          Cmd.globalBucketOffsetsDispatch RADIX_GROUPS,
          Cmd.clearBuffer Buf.bsByGroupCounter, Cmd.clearBufferSlice Buf.bsByGroupState,
          Cmd.bucketScatterByDispatch 0 true n DispatchSize.indirect,
          Cmd.clearBuffer Buf.bsByGroupCounter, Cmd.clearBufferSlice Buf.bsByGroupState,
          Cmd.bucketScatterByDispatch 1 false n DispatchSize.indirect]) := by
  have h4 : List.range 4 = [0, 1, 2, 3] := rfl
  have h2 : List.range 2 = [0, 1] := rfl
  refine ⟨?_, ?_, ?_, ?_, ?_, ?_, ?_, ?_⟩ <;>
    intros <;>
    simp [RadixSort.encode, RadixSort.encodeHalfPrecision, RadixSort.encodeInternal,
      RadixSortBy.encode, RadixSortBy.encodeHalfPrecision, RadixSortBy.encodeInternal,
      h4, h2, RadixSort.scatterPasses, RadixSortBy.scatterPasses, BucketScatter.encode,
      BucketScatterBy.encode, BucketHistogram.encode, GlobalBucketOffsets.encode,
      CountBuffer.new, CountBuffer.uniform]

/-- Extracts, from a recorded command, the count-uniform value and
dispatch size of an element-processing kernel dispatch.  Fixed-size
kernels (global bucket offsets: always `RADIX_GROUPS` workgroups;
resolve-run-count: always one workgroup), buffer clears and the
dispatch-generator's own single-workgroup launch are not
element-processing dispatches and yield `none`. -/
def Cmd.elementKernel? : Cmd → Option (Nat × DispatchSize)
  | Cmd.scanDispatch b d => some (b, d)
  | Cmd.bucketHistogramDispatch b d => some (b, d)
  | Cmd.bucketScatterDispatch _ _ b d => some (b, d)
  | Cmd.bucketScatterByDispatch _ _ b d => some (b, d)
  | Cmd.markRunStartsDispatch b d => some (b, d)
  | Cmd.collectRunStartsDispatch b d => some (b, d)
  | Cmd.gatherByDispatch b d => some (b, d)
  | Cmd.scatterByDispatch b d => some (b, d)
  | _ => none

/-- Holds of a command when any element-processing kernel dispatch it
records binds the caller's count when one was supplied (and otherwise
the fallback), and is indirect exactly when the caller supplied a
count. -/
def countModeOk (count : Option Nat) (fallback : Nat) (c : Cmd) : Bool :=
  match Cmd.elementKernel? c with
  | some (b, d) => b == count.getD fallback && (DispatchSize.isIndirect d == count.isSome)
  | none => true

/-- C4: for every encode operation (prefix sum, radix sort, radix
sort-by, find-runs, gather-by, scatter-by), every element-processing
kernel is dispatched indirectly iff the caller supplied a count uniform,
and binds as its count operand the caller's count when one was supplied
and otherwise a fallback uniform holding the data buffer's length; each
encode records at least one such kernel dispatch. -/
theorem indirect_dispatch_iff_count_supplied :
    (∀ dataLen count cap,
      (PrefixSum.encode dataLen count cap).1.all (countModeOk count (toU32 dataLen)) = true ∧
      (PrefixSum.encode dataLen count cap).1.any
        (fun c => (Cmd.elementKernel? c).isSome) = true) ∧
    (∀ dataLen tempLen count cap,
      (RadixSort.encode dataLen tempLen count cap).1.all
        (countModeOk count (toU32 dataLen)) = true ∧
      (RadixSort.encode dataLen tempLen count cap).1.any
        (fun c => (Cmd.elementKernel? c).isSome) = true) ∧
    (∀ keysLen valuesLen tkLen tvLen count cap,
      (RadixSortBy.encode keysLen valuesLen tkLen tvLen count cap).1.all
        (countModeOk count (toU32 keysLen)) = true ∧
      (RadixSortBy.encode keysLen valuesLen tkLen tvLen count cap).1.any
        (fun c => (Cmd.elementKernel? c).isSome) = true) ∧
    (∀ dataLen count cap,
      (FindRuns.encode dataLen dataLen count cap).1.all
        (countModeOk count (toU32 dataLen)) = true ∧
      (FindRuns.encode dataLen dataLen count cap).1.any
        (fun c => (Cmd.elementKernel? c).isSome) = true) ∧
    (∀ byLen dataLen count,
      (GatherBy.encode byLen dataLen count).all (countModeOk count (toU32 dataLen)) = true ∧
      (GatherBy.encode byLen dataLen count).any
        (fun c => (Cmd.elementKernel? c).isSome) = true) ∧
    (∀ byLen dataLen count,
      (ScatterBy.encode byLen dataLen count).all (countModeOk count (toU32 dataLen)) = true ∧
      (ScatterBy.encode byLen dataLen count).any
        (fun c => (Cmd.elementKernel? c).isSome) = true) := by
  have h4 : List.range 4 = [0, 1, 2, 3] := rfl
  refine ⟨?_, ?_, ?_, ?_, ?_, ?_⟩
  · intro dataLen count cap
    cases count <;>
      simp [PrefixSum.encode, countModeOk, Cmd.elementKernel?, DispatchSize.isIndirect]
  · intro dataLen tempLen count cap
    cases count <;>
      simp [RadixSort.encode, RadixSort.encodeInternal, h4, RadixSort.scatterPasses,
        BucketScatter.encode, BucketHistogram.encode, GlobalBucketOffsets.encode,
        countModeOk, Cmd.elementKernel?, DispatchSize.isIndirect]
  · intro keysLen valuesLen tkLen tvLen count cap
    cases count <;>
      simp [RadixSortBy.encode, RadixSortBy.encodeInternal, h4, RadixSortBy.scatterPasses,
        BucketScatterBy.encode, BucketHistogram.encode, GlobalBucketOffsets.encode,
        CountBuffer.new, CountBuffer.uniform, countModeOk, Cmd.elementKernel?,
        DispatchSize.isIndirect]
  · intro dataLen count cap
    cases count <;>
      simp [FindRuns.encode, PrefixSum.encode, MarkRunStarts.encode,
        CollectRunStarts.encode, ResolveRunCount.encode, countModeOk,
        Cmd.elementKernel?, DispatchSize.isIndirect]
  · intro byLen dataLen count
    cases count <;>
      simp [GatherBy.encode, countModeOk, Cmd.elementKernel?, DispatchSize.isIndirect]
  · intro byLen dataLen count
    cases count <;>
      simp [ScatterBy.encode, CountBuffer.new, CountBuffer.uniform, countModeOk,
        Cmd.elementKernel?, DispatchSize.isIndirect]

/-- C5: every `PrefixSum::encode` and `BucketScatter::encode` records a
zero-clear of its group counter and of its group-state buffer
immediately before the kernel dispatch that uses them, and the
group-state buffer is reallocated (to exactly the required workgroup
count) only when that count exceeds its current capacity, so capacity
never shrinks and grows monotonically across encodes. -/
theorem internal_state_reset_and_monotone_capacity :
    (∀ dataLen count cap,
      (∃ pre c d,
        (PrefixSum.encode dataLen count cap).1 =
          pre ++ [Cmd.clearBuffer Buf.psGroupCounter, Cmd.clearBufferSlice Buf.psGroupState,
            Cmd.scanDispatch c d]) ∧
      cap ≤ (PrefixSum.encode dataLen count cap).2 ∧
      (cap < divCeil (toU32 dataLen) PrefixSum.SEGMENT_SIZE →
        (PrefixSum.encode dataLen count cap).2 =
          divCeil (toU32 dataLen) PrefixSum.SEGMENT_SIZE) ∧
      (divCeil (toU32 dataLen) PrefixSum.SEGMENT_SIZE ≤ cap →
        (PrefixSum.encode dataLen count cap).2 = cap)) ∧
    (∀ rg inPrim cv ind fb cap,
      (∃ c d,
        (BucketScatter.encode rg inPrim cv ind fb cap).1 =
          [Cmd.clearBuffer Buf.bsGroupCounter, Cmd.clearBufferSlice Buf.bsGroupState,
            Cmd.bucketScatterDispatch rg inPrim c d]) ∧
      cap ≤ (BucketScatter.encode rg inPrim cv ind fb cap).2 ∧
      (cap < divCeil fb BUCKET_SCATTER_SEGMENT_SIZE →
        (BucketScatter.encode rg inPrim cv ind fb cap).2 =
          divCeil fb BUCKET_SCATTER_SEGMENT_SIZE) ∧
      (divCeil fb BUCKET_SCATTER_SEGMENT_SIZE ≤ cap →
        (BucketScatter.encode rg inPrim cv ind fb cap).2 = cap)) := by
  constructor
  · intro dataLen count cap
    refine ⟨?_, ?_, ?_, ?_⟩
    · rcases count with _ | n
      · exact ⟨[], toU32 dataLen,
          DispatchSize.direct (divCeil (toU32 dataLen) PrefixSum.SEGMENT_SIZE), rfl⟩
      · exact ⟨[Cmd.generateDispatch PrefixSum.SEGMENT_SIZE n], n, DispatchSize.indirect, rfl⟩
    · simp only [PrefixSum.encode]
      split_ifs <;> omega
    · intro hlt
      simp only [PrefixSum.encode]
      split_ifs <;> omega
    · intro hge
      simp only [PrefixSum.encode]
      split_ifs <;> omega
  · intro rg inPrim cv ind fb cap
    refine ⟨?_, ?_, ?_, ?_⟩
    · cases ind
      · exact ⟨cv, DispatchSize.direct (divCeil fb BUCKET_SCATTER_SEGMENT_SIZE), rfl⟩
      · exact ⟨cv, DispatchSize.indirect, rfl⟩
    · simp only [BucketScatter.encode]
      split_ifs <;> omega
    · intro hlt
      simp only [BucketScatter.encode]
      split_ifs <;> omega
    · intro hge
      simp only [BucketScatter.encode]
      split_ifs <;> omega

/-- Witness for C5 at a concrete input: a 4096-element prefix sum over
an undersized capacity grows the group-state buffer to exactly the two
required workgroups. -/
theorem internal_state_reset_witness : (PrefixSum.encode 4096 none 0).2 = 2 := by
  have h :=
    (internal_state_reset_and_monotone_capacity.1 4096 none 0).2.2.1 (by decide)
  have h2 : divCeil (toU32 4096) PrefixSum.SEGMENT_SIZE = 2 := by decide
  rw [h2] at h
  exact h

/-- C10: at the moment a scan or bucket-scatter dispatch is recorded,
the group-state buffer holds at least `⌈L / segment_size⌉` entries for
`L` the full length of the caller's data buffer: capacity is computed
from the buffer length (the fallback count), never from the bound count
uniform, so for any live count `n ≤ L` the capacity suffices even under
indirect dispatch, and the resulting capacity is independent of whether
a count uniform was supplied. -/
theorem group_state_capacity_sufficient :
    (∀ dataLen count cap, dataLen < 2 ^ 32 →
      ∀ n, n ≤ dataLen →
        divCeil n PrefixSum.SEGMENT_SIZE ≤ (PrefixSum.encode dataLen count cap).2) ∧
    (∀ rg inPrim cv ind fb cap,
      ∀ n, n ≤ fb →
        divCeil n BUCKET_SCATTER_SEGMENT_SIZE ≤
          (BucketScatter.encode rg inPrim cv ind fb cap).2) ∧
    (∀ dataLen tempLen count cap, dataLen < 2 ^ 32 →
      (RadixSort.encode dataLen tempLen count cap).2 =
        (RadixSort.encode dataLen tempLen none cap).2 ∧
      ∀ n, n ≤ dataLen →
        divCeil n BUCKET_SCATTER_SEGMENT_SIZE ≤
          (RadixSort.encode dataLen tempLen count cap).2) := by
  refine ⟨?_, ?_, ?_⟩
  · intro dataLen count cap h n hn
    have h32 : toU32 dataLen = dataLen := Nat.mod_eq_of_lt h
    have hmono := divCeil_le_divCeil hn PrefixSum.SEGMENT_SIZE (by decide)
    simp only [PrefixSum.encode, h32]
    split_ifs <;> omega
  · intro rg inPrim cv ind fb cap n hn
    have hmono := divCeil_le_divCeil hn BUCKET_SCATTER_SEGMENT_SIZE (by decide)
    simp only [BucketScatter.encode]
    split_ifs <;> omega
  · intro dataLen tempLen count cap h
    have h32 : toU32 dataLen = dataLen := Nat.mod_eq_of_lt h
    have hs := RadixSort.scatterPasses_snd_eq (List.range 4)
    constructor
    · simp only [RadixSort.encode, RadixSort.encodeInternal, hs, h32]
    · intro n hn
      have hmono := divCeil_le_divCeil hn BUCKET_SCATTER_SEGMENT_SIZE (by decide)
      have hemp : (List.range 4).isEmpty = false := rfl
      simp only [RadixSort.encode, RadixSort.encodeInternal, hs, h32, hemp,
        Bool.false_eq_true, if_false]
      omega

/-- Witness for C10 at a concrete input: sorting a 4096-element buffer
indirectly with a live count of 3000 leaves a group-state capacity that
covers the three workgroups needed for 3000 elements. -/
theorem group_state_capacity_sufficient_witness :
    divCeil 3000 BUCKET_SCATTER_SEGMENT_SIZE ≤
      (RadixSort.encode 4096 4096 (some 3000) 0).2 :=
  ((group_state_capacity_sufficient.2.2 4096 4096 (some 3000) 0 (by decide)).2) 3000
    (by decide)

/-- C6: every `FindRuns::encode` records, in this order (after the
optional dispatch generation and the zero-clear of `run_mapping`): the
mark-run-starts kernel writing into `run_mapping`, an inclusive `u32`
prefix sum of `run_mapping` recorded by the very same `PrefixSum.encode`
used for stand-alone scans, the collect-run-starts kernel, and a final
resolve-run-count kernel dispatched with a single workgroup; the
resolve kernel (modelled from the spec) writes `run_mapping[n-1]`, the
last element of an `n`-element mapping, into `run_count`. -/
theorem find_runs_command_sequence :
    (∀ dataLen runMappingLen cap,
      (FindRuns.encode dataLen runMappingLen none cap).1 =
        [Cmd.clearBufferSlice Buf.runMapping,
          Cmd.markRunStartsDispatch (toU32 dataLen)
            (DispatchSize.direct (divCeil (toU32 dataLen) FindRuns.GROUPS_SIZE))] ++
        (PrefixSum.encode runMappingLen none cap).1 ++
        [Cmd.collectRunStartsDispatch (toU32 dataLen)
            (DispatchSize.direct (divCeil (toU32 dataLen) FindRuns.GROUPS_SIZE)),
          Cmd.resolveRunCountDispatch (toU32 dataLen) 1]) ∧
    (∀ dataLen runMappingLen n cap,
      (FindRuns.encode dataLen runMappingLen (some n) cap).1 =
        [Cmd.generateDispatch FindRuns.GROUPS_SIZE n,
          Cmd.clearBufferSlice Buf.runMapping,
          Cmd.markRunStartsDispatch n DispatchSize.indirect] ++
        (PrefixSum.encode runMappingLen (some n) cap).1 ++
        [Cmd.collectRunStartsDispatch n DispatchSize.indirect,
          Cmd.resolveRunCountDispatch n 1]) ∧
    (∀ runMapping : List Nat, ∀ h : runMapping ≠ [],
      resolveRunCountKernel runMapping runMapping.length = runMapping.getLast h) := by
  refine ⟨?_, ?_, ?_⟩
  · intro dataLen runMappingLen cap
    simp [FindRuns.encode, MarkRunStarts.encode, CollectRunStarts.encode,
      ResolveRunCount.encode]
  · intro dataLen runMappingLen n cap
    simp [FindRuns.encode, MarkRunStarts.encode, CollectRunStarts.encode,
      ResolveRunCount.encode]
  · intro runMapping h
    rw [resolveRunCountKernel, List.getLast_eq_getElem]
    rcases runMapping with _ | ⟨a, l⟩
    · exact absurd rfl h
    · simp [List.getD_eq_getElem?_getD, List.getElem?_eq_getElem]

/-- Witness for C6 at a concrete input: for the three-element mapping
`[1, 1, 2]` the modelled resolve kernel returns its last element `2`. -/
theorem find_runs_command_sequence_witness : resolveRunCountKernel [1, 1, 2] 3 = 2 := by
  have h := find_runs_command_sequence.2.2 [1, 1, 2] (by decide)
  exact h

/-- C9: every packed 32-bit scatter group-state word `w` decodes as
`status = w >> 30` and `value = w & 0x3FFFFFFF`, with statuses `0`, `1`,
`2` meaning `NotReady`, `LocalOffset`, `GlobalOffset`; the branch for
status `3` is unreachable, so decoding any word whose top two bits are
both set panics (`none`), and the 30-bit value field represents every
count `n < 2^30` exactly. -/
theorem group_state_packed_decode :
    (∀ w, w < 2 ^ 32 → (decodeGroupState w = none ↔ w >>> 30 = 3)) ∧
    (∀ w, w < 2 ^ 32 → (w >>> 30 = 3 ↔ 3 * 2 ^ 30 ≤ w)) ∧
    (∀ w s v, decodeGroupState w = some (s, v) →
      v = w % 2 ^ 30 ∧ GroupStatus.code s = w >>> 30) ∧
    (∀ s n, n < 2 ^ 30 →
      decodeGroupState (GroupStatus.code s * 2 ^ 30 + n) = some (s, n)) := by
  have hmask : ∀ w : Nat, w &&& 0x3FFFFFFF = w % 2 ^ 30 := fun w =>
    Nat.and_pow_two_sub_one_eq_mod w 30
  have hshift : ∀ w : Nat, w >>> 30 = w / 2 ^ 30 := fun w =>
    Nat.shiftRight_eq_div_pow w 30
  refine ⟨?_, ?_, ?_, ?_⟩
  · intro w hw
    have hlt : w / 2 ^ 30 < 4 := Nat.div_lt_of_lt_mul (by omega)
    rw [decodeGroupState, hshift]
    split_ifs <;> simp_all <;> omega
  · intro w hw
    rw [hshift]
    constructor
    · intro h
      have := Nat.div_add_mod w (2 ^ 30)
      have := Nat.mod_lt w (show 0 < 2 ^ 30 by decide)
      omega
    · intro h
      have hlt : w / 2 ^ 30 < 4 := Nat.div_lt_of_lt_mul (by omega)
      have hge : 3 ≤ w / 2 ^ 30 := (Nat.le_div_iff_mul_le (by decide)).2 (by omega)
      omega
  · intro w s v h
    simp only [decodeGroupState] at h
    split_ifs at h with h0 h1 h2
    · simp only [Option.some.injEq, Prod.mk.injEq] at h
      obtain ⟨rfl, rfl⟩ := h
      exact ⟨hmask w, by rw [h0]; rfl⟩
    · simp only [Option.some.injEq, Prod.mk.injEq] at h
      obtain ⟨rfl, rfl⟩ := h
      exact ⟨hmask w, by rw [h1]; rfl⟩
    · simp only [Option.some.injEq, Prod.mk.injEq] at h
      obtain ⟨rfl, rfl⟩ := h
      exact ⟨hmask w, by rw [h2]; rfl⟩
  · intro s n hn
    have hdiv : (GroupStatus.code s * 2 ^ 30 + n) / 2 ^ 30 = GroupStatus.code s := by
      rw [Nat.mul_comm, Nat.mul_add_div (by decide), Nat.div_eq_of_lt hn, Nat.add_zero]
    have hmod : (GroupStatus.code s * 2 ^ 30 + n) % 2 ^ 30 = n := by
      rw [Nat.mul_comm, Nat.mul_add_mod, Nat.mod_eq_of_lt hn]
    cases s <;>
      simp_all [decodeGroupState, hshift, hmask, GroupStatus.code]

/-- Witness for C9 at concrete inputs: the word `0xC0000000` (both top
bits set) decodes to `none`, and packing `LocalOffset` with value `5`
round-trips. -/
theorem group_state_packed_decode_witness :
    (decodeGroupState 0xC0000000 = none ↔ 0xC0000000 >>> 30 = 3) ∧
    decodeGroupState (GroupStatus.code GroupStatus.LocalOffset * 2 ^ 30 + 5) =
      some (GroupStatus.LocalOffset, 5) :=
  ⟨group_state_packed_decode.1 0xC0000000 (by decide),
    group_state_packed_decode.2.2.2 GroupStatus.LocalOffset 5 (by decide)⟩

/-- C8: for every value type `V`, `write_value_type` panics iff
`size_of::<V>()` is not a multiple of 4, and otherwise appends to the
shader source a `VALUE_TYPE` struct definition containing exactly
`size_of::<V>() / 4` 32-bit fields (which together account for the full
size). -/
theorem write_value_type_spec (size : Nat) (s : String) :
    (write_value_type size s = none ↔ size % 4 ≠ 0) ∧
    (size % 4 = 0 →
      write_value_type size s =
        some (s ++ "struct VALUE_TYPE \x7b" ++
          String.join ((List.range (size / 4)).map valueTypeFieldLine) ++ "\x7d\n\n") ∧
      ((List.range (size / 4)).map valueTypeFieldLine).length = size / 4 ∧
      4 * (size / 4) = size) := by
  constructor
  · rw [write_value_type]
    split_ifs with h
    · simp [h]
    · simp [h]
  · intro h
    refine ⟨?_, by simp, Nat.mul_div_cancel' (Nat.dvd_of_mod_eq_zero h)⟩
    rw [write_value_type, if_neg (by omega)]

/-- Witness for C8 at a concrete input: an 8-byte value type yields a
two-field struct appended to the source. -/
theorem write_value_type_spec_witness :
    write_value_type 8 "" =
      some ("" ++ "struct VALUE_TYPE \x7b" ++
        String.join ((List.range 2).map valueTypeFieldLine) ++ "\x7d\n\n") :=
  ((write_value_type_spec 8 "").2 (by decide)).1

/- Machinery for the gather/scatter inversion. -/

theorem foldl_set_length {α : Type} (ps : List (Nat × α)) (dst : List α) :
    (ps.foldl (fun d p => d.set p.1 p.2) dst).length = dst.length := by
  induction ps generalizing dst with
  | nil => rfl
  | cons p rest ih => simp [List.foldl_cons, ih, List.length_set]

theorem foldl_set_getElem? {α : Type} (ps : List (Nat × α)) (dst : List α) (j : Nat)
    (hbound : ∀ p ∈ ps, p.1 < dst.length) :
    (ps.foldl (fun d p => d.set p.1 p.2) dst)[j]? =
      match ps.reverse.find? (fun p => p.1 == j) with
      | some p => some p.2
      | none => dst[j]? := by
  induction ps generalizing dst with
  | nil => simp
  | cons p rest ih =>
    have hrest : ∀ q ∈ rest, q.1 < (dst.set p.1 p.2).length := by
      intro q hq
      rw [List.length_set]
      exact hbound q (List.mem_cons_of_mem p hq)
    rw [List.foldl_cons, ih (dst.set p.1 p.2) hrest, List.reverse_cons, List.find?_append]
    rcases hfind : rest.reverse.find? (fun q => q.1 == j) with _ | q
    · cases hbeq : (p.1 == j) with
      | false =>
        have hne : p.1 ≠ j := by simpa using hbeq
        simp only [hfind, List.find?_singleton, hbeq, Option.none_or, cond_false]
        exact List.getElem?_set_ne hne
      | true =>
        have heq : p.1 = j := by simpa using hbeq
        simp only [hfind, List.find?_singleton, hbeq, Option.none_or, cond_true]
        subst heq
        exact List.getElem?_set_self (hbound p (List.mem_cons_self p rest))
    · simp [Option.or, hfind]

theorem snd_eq_of_mem_zip_map {α : Type} (f : Nat → α) (l : List Nat) (q : Nat × α)
    (hq : q ∈ l.zip (l.map f)) : q.2 = f q.1 := by
  induction l with
  | nil => simp at hq
  | cons a rest ih =>
    rw [List.map_cons, List.zip_cons_cons, List.mem_cons] at hq
    rcases hq with h | h
    · rw [h]
    · exact ih h

/-- C7: with `gather_by` defined by `dst[i] = src[idx[i]]` and
`scatter_by` defined by `dst[idx[i]] = src[i]`, for every value array
`X`, every output buffer of the same length, and every index array `idx`
that is a permutation of `0..|X|`, scattering the gathered values
restores `X` exactly. -/
theorem scatter_gather_inversion {α : Type} [Inhabited α] (idx : List Nat) (X dst : List α)
    (hperm : idx.Perm (List.range X.length)) (hdst : dst.length = X.length) :
    scatter_by idx (gather_by idx X) dst = X := by
  have hlen : idx.length = X.length := by
    have := hperm.length_eq
    simpa using this
  have hglen : (gather_by idx X).length = idx.length := by
    simp [gather_by]
  have hmemrange : ∀ i, i ∈ idx ↔ i < X.length := by
    intro i
    rw [hperm.mem_iff, List.mem_range]
  have hbound : ∀ p ∈ idx.zip (gather_by idx X), p.1 < dst.length := by
    intro p hp
    have h1 : p.1 ∈ idx := (List.of_mem_zip hp).1
    rw [hdst]
    exact (hmemrange p.1).1 h1
  apply List.ext_getElem?
  intro j
  rw [scatter_by, foldl_set_getElem? _ dst j hbound]
  rcases hfind : (idx.zip (gather_by idx X)).reverse.find? (fun p => p.1 == j) with _ | q
  · have hj : X.length ≤ j := by
      by_contra hlt
      rw [Nat.not_le] at hlt
      have hjidx : j ∈ idx := (hmemrange j).2 hlt
      obtain ⟨k, hk, hkj⟩ := List.mem_iff_getElem.1 hjidx
      have hzip : (idx.zip (gather_by idx X))[k]? = some (j, (gather_by idx X)[k]) := by
        rw [List.getElem?_zip_eq_some]
        constructor
        · rw [List.getElem?_eq_getElem hk, hkj]
        · exact List.getElem?_eq_getElem (by omega)
      have hmem : (j, (gather_by idx X)[k]) ∈ (idx.zip (gather_by idx X)).reverse :=
        List.mem_reverse.2 (List.getElem?_mem hzip)
      have hsome : ((idx.zip (gather_by idx X)).reverse.find?
          (fun p => p.1 == j)).isSome = true :=
        List.find?_isSome.2 ⟨_, hmem, by simp⟩
      rw [hfind] at hsome
      simp at hsome
    rw [hfind, List.getElem?_eq_none (show dst.length ≤ j by omega),
      List.getElem?_eq_none hj]
  · rw [hfind]
    show some q.2 = X[j]?
    have hq1 : q.1 = j := by
      have := List.find?_some hfind
      simpa using this
    have hqmem : q ∈ idx.zip (gather_by idx X) :=
      List.mem_reverse.1 (List.mem_of_find?_eq_some hfind)
    have hq2 : q.2 = X.getD q.1 default :=
      snd_eq_of_mem_zip_map (fun i => X.getD i default) idx q hqmem
    have hjlt : j < X.length := by
      have h1 : q.1 ∈ idx := (List.of_mem_zip hqmem).1
      rw [← hq1]
      exact (hmemrange q.1).1 h1
    rw [hq2, hq1, List.getD_eq_getElem?_getD, List.getElem?_eq_getElem hjlt]
    rfl

/-- Witness for C7 at a concrete input: the cyclic permutation
`[2, 0, 1]` of three values round-trips through gather then scatter. -/
theorem scatter_gather_inversion_witness :
    [2, 0, 1].Perm (List.range 3) ∧
    scatter_by [2, 0, 1] (gather_by [2, 0, 1] ([10, 20, 30] : List Nat)) [0, 0, 0] =
      [10, 20, 30] :=
  ⟨by decide,
    scatter_gather_inversion [2, 0, 1] [10, 20, 30] [0, 0, 0] (by decide) (by decide)⟩

end EmpaTk
